import Mathlib

/-!
Verification of the mca-timer deferred-callback service against its
specification.  The data model and operations below are a shallow embedding
of the Rust sources: timestamps (`chrono::DateTime<Utc>`) are modelled as
integer milliseconds, UUIDs as naturals, `serde_json::Value` as an opaque
blob, and the Postgres `timers` table as a list of rows; each SQL statement
of `src/db.rs` becomes the corresponding pure transformation of that list.
-/

/-- Opaque JSON blob (`serde_json::Value`); the engine never inspects it. -/
abbrev Json := String

/-- Timer status enum (`TimerStatus`, src/models.rs). -/
inductive TimerStatus where
  | pending
  | executing
  | completed
  | failed
  | canceled
deriving Repr, DecidableEq

/-- Embeds `Display for TimerStatus` (src/models.rs): lowercase names. -/
def TimerStatus.toString : TimerStatus → String
  | .pending => "pending"
  | .executing => "executing"
  | .completed => "completed"
  | .failed => "failed"
  | .canceled => "canceled"

/-- Callback type discriminator (`CallbackType`, src/models.rs). -/
inductive CallbackType where
  | http
  | nats
deriving Repr, DecidableEq

/-- Embeds `HTTPCallback` (src/models.rs). -/
structure HTTPCallback where
  url : String
  headers : Option Json
  payload : Option Json
deriving Repr, DecidableEq

/-- Embeds `NATSCallback` (src/models.rs). -/
structure NATSCallback where
  topic : String
  key : Option String
  headers : Option Json
  payload : Option Json
deriving Repr, DecidableEq

/-- Embeds `CallbackConfig` (src/models.rs): tagged union of the two shapes. -/
inductive CallbackConfig where
  | http (c : HTTPCallback)
  | nats (c : NATSCallback)
deriving Repr, DecidableEq

/-- A row of the `timers` table (`Timer`, src/models.rs).  Timestamps are
integer milliseconds; `id` is a natural standing for the UUID. -/
structure Timer where
  id : Nat
  created_at : Int
  updated_at : Int
  execute_at : Int
  callback_type : CallbackType
  callback_config : CallbackConfig
  status : TimerStatus
  last_error : Option String
  executed_at : Option Int
  metadata : Option Json
deriving Repr, DecidableEq

/-- The durable store: the rows of the `timers` table. -/
abbrev Store := List Timer

/-- Embeds `db_get_timer` (src/db.rs): `SELECT ... WHERE id = $1`. -/
def db_get_timer (db : Store) (timer_id : Nat) : Option Timer :=
  db.find? (fun r => r.id == timer_id)

/-- Embeds `db_cancel_timer` (src/db.rs): `UPDATE timers SET status = canceled,
updated_at = NOW() WHERE id = $1` — note: no condition on the current
status. -/
def db_cancel_timer (db : Store) (timer_id : Nat) (now : Int) : Store :=
  db.map (fun r =>
    if r.id == timer_id then
      { r with status := .canceled, updated_at := now }
    else r)

/-- Embeds `db_mark_executing` (src/db.rs): `UPDATE timers SET status = executing,
updated_at = NOW() WHERE id = $1` — note: the `WHERE` clause tests only the
id, not the current status, and the Rust function returns `Ok(())`
unconditionally (zero rows affected is not an error). -/
def db_mark_executing (db : Store) (timer_id : Nat) (now : Int) : Store :=
  db.map (fun r =>
    if r.id == timer_id then
      { r with status := .executing, updated_at := now }
    else r)

/-- Embeds `db_mark_completed` (src/db.rs): `UPDATE timers SET status = completed,
executed_at = NOW(), updated_at = NOW() WHERE id = $1` — again no condition
on the current status. -/
def db_mark_completed (db : Store) (timer_id : Nat) (now : Int) : Store :=
  db.map (fun r =>
    if r.id == timer_id then
      { r with status := .completed, executed_at := some now, updated_at := now }
    else r)

/-- Embeds `db_mark_failed` (src/db.rs): `UPDATE timers SET status = failed,
last_error = $3, executed_at = NOW(), updated_at = NOW() WHERE id = $1`. -/
def db_mark_failed (db : Store) (timer_id : Nat) (error_message : String)
    (now : Int) : Store :=
  db.map (fun r =>
    if r.id == timer_id then
      { r with status := .failed, last_error := some error_message,
               executed_at := some now, updated_at := now }
    else r)

/-- The per-row effect of the dynamic `SET` clause of `db_update_timer`
(src/db.rs): always `updated_at = NOW()`, and each of `execute_at`,
`callback_type`, `callback_config`, `metadata` exactly when the
corresponding argument is `Some`. -/
def updateTimerRow (timer_id : Nat) (execute_at : Option Int)
    (callback_type : Option CallbackType)
    (callback_config : Option CallbackConfig) (metadata : Option Json)
    (now : Int) (r : Timer) : Timer :=
  if r.id == timer_id then
    { r with
      updated_at := now
      execute_at := execute_at.getD r.execute_at
      callback_type := callback_type.getD r.callback_type
      callback_config := callback_config.getD r.callback_config
      metadata := match metadata with
        | some m => some m
        | none => r.metadata }
  else r

/-- Embeds `db_update_timer` (src/db.rs): `UPDATE timers SET <dynamic> WHERE
id = $1` — the `WHERE` clause tests only the id; there is no status
check at the database layer. -/
def db_update_timer (db : Store) (timer_id : Nat) (execute_at : Option Int)
    (callback_type : Option CallbackType)
    (callback_config : Option CallbackConfig) (metadata : Option Json)
    (now : Int) : Store :=
  db.map (updateTimerRow timer_id execute_at callback_type callback_config
    metadata now)

/-- Embeds `db_load_near_term_timers` (src/db.rs): all `pending` rows with
`execute_at ∈ (now − 5 min, now + 1 min]`, ordered by `execute_at` ASC.
5 min = 300000 ms, 1 min = 60000 ms. -/
def db_load_near_term_timers (db : Store) (now : Int) : List Timer :=
  ((db.filter (fun r =>
    r.status == .pending
      && decide (now - 300000 < r.execute_at)
      && decide (r.execute_at ≤ now + 60000))).mergeSort
    (fun a b => decide (a.execute_at ≤ b.execute_at)))

/-! ## Scheduler (src/scheduler.rs)

The in-memory cache is `HashMap<Uuid, Timer>` (src/models.rs, `TimerCache`).
We model its contents as an association list whose order is the iteration
order of the map — which a `std::collections::HashMap` does not relate to
`execute_at` (or to anything else) in any way. -/

/-- The cache contents in iteration order. -/
abbrev Cache := List (Nat × Timer)

/-- The due-timer snapshot of one Execution Task tick (src/scheduler.rs
lines 60–67): iterate the cache values and keep those with
`execute_at ≤ now`, in cache iteration order. -/
def dueTimers (cache : Cache) (now : Int) : List Timer :=
  (cache.map Prod.snd).filter (fun t => decide (t.execute_at ≤ now))

/-- State threaded through one tick: the store, the cache, and the list of
timers handed to dispatch tasks so far, in spawn order. -/
structure TickState where
  db : Store
  cache : Cache
  dispatched : List Timer
deriving Repr, DecidableEq

/-- The per-timer body of the tick loop (src/scheduler.rs lines 75–105):
`db_mark_executing` is called; it returns `Ok(())` unconditionally (its SQL
has no status condition and zero affected rows is not an error), so the code
always proceeds to remove the id from the cache and spawn the callback
task.  The `Err` branch of the `match` is reachable only on a backend
error, which the pure model does not produce. -/
def tickStep (now : Int) (st : TickState) (t : Timer) : TickState :=
  { db := db_mark_executing st.db t.id now
    cache := st.cache.filter (fun p => p.1 != t.id)
    dispatched := st.dispatched ++ [t] }

/-- One full iteration of the Execution Task loop (src/scheduler.rs lines
54–106): snapshot the due timers, then claim-and-dispatch each in turn. -/
def executionTick (db : Store) (cache : Cache) (now : Int) : TickState :=
  (dueTimers cache now).foldl (tickStep now) ⟨db, cache, []⟩

/-- One iteration of the Memory Loader loop (src/scheduler.rs lines 25–47):
replace the whole cache with the near-term window.  `HashMap` insertion
order is not preserved by iteration, so the resulting iteration order is an
arbitrary permutation; we parameterize over it. -/
def loaderTick (db : Store) (now : Int) : Cache :=
  (db_load_near_term_timers db now).map (fun t => (t.id, t))

/-! ## Dispatcher (src/callback.rs) -/

/-- Outcome of `request.send().await` in `execute_callback`: either a
response with a status code, or one of the `reqwest::Error` categories the
code distinguishes (`is_timeout`, `is_connect`, `is_request`, other). -/
inductive SendResult where
  | response (code : Nat)
  | timeoutErr
  | connectErr (msg : String)
  | requestErr (msg : String)
  | networkErr (msg : String)
deriving Repr, DecidableEq

/-- Embeds `http::StatusCode::canonical_reason` for the status codes registered in
the `http` crate; `None` is modelled by the `"Unknown"` fallback the caller
substitutes via `unwrap_or("Unknown")`. -/
def canonicalReason : Nat → String
  | 100 => "Continue"
  | 101 => "Switching Protocols"
  | 200 => "OK"
  | 201 => "Created"
  | 202 => "Accepted"
  | 203 => "Non Authoritative Information"
  | 204 => "No Content"
  | 205 => "Reset Content"
  | 206 => "Partial Content"
  | 300 => "Multiple Choices"
  | 301 => "Moved Permanently"
  | 302 => "Found"
  | 303 => "See Other"
  | 304 => "Not Modified"
  | 305 => "Use Proxy"
  | 307 => "Temporary Redirect"
  | 308 => "Permanent Redirect"
  | 400 => "Bad Request"
  | 401 => "Unauthorized"
  | 402 => "Payment Required"
  | 403 => "Forbidden"
  | 404 => "Not Found"
  | 405 => "Method Not Allowed"
  | 406 => "Not Acceptable"
  | 408 => "Request Timeout"
  | 409 => "Conflict"
  | 410 => "Gone"
  | 413 => "Payload Too Large"
  | 415 => "Unsupported Media Type"
  | 422 => "Unprocessable Entity"
  | 429 => "Too Many Requests"
  | 500 => "Internal Server Error"
  | 501 => "Not Implemented"
  | 502 => "Bad Gateway"
  | 503 => "Service Unavailable"
  | 504 => "Gateway Timeout"
  | _ => "Unknown"

/-- Embeds `reqwest::StatusCode::is_success`: code in `[200, 300)`. -/
def isSuccessStatus (code : Nat) : Bool :=
  200 ≤ code && code < 300

/-- The outcome-recording logic of `execute_callback` (src/callback.rs lines
41–87): a 2xx response marks the timer completed; any other response marks
it failed with `"HTTP <code>: <reason>"`; a send error marks it failed with
the category-tagged message. -/
def execute_callback (db : Store) (timer_id : Nat) (result : SendResult)
    (now : Int) : Store :=
  match result with
  | .response code =>
    if isSuccessStatus code then
      db_mark_completed db timer_id now
    else
      db_mark_failed db timer_id
        ("HTTP " ++ toString code ++ ": " ++ canonicalReason code) now
  | .timeoutErr =>
    db_mark_failed db timer_id "Connection timeout after 30s" now
  | .connectErr m =>
    db_mark_failed db timer_id ("Connection error: " ++ m) now
  | .requestErr m =>
    db_mark_failed db timer_id ("Request error: " ++ m) now
  | .networkErr m =>
    db_mark_failed db timer_id ("Network error: " ++ m) now

/-! ## Admission API handlers

Each handler is modelled as a pure function from the request (and the store,
the clock, and the NATS availability flag) to either an error response or a
success response together with the new store.  The error side carries the
HTTP status, the envelope `code` and the `message` (`ApiResponse::error`,
src/models.rs). -/

/-- An error response: HTTP status, envelope code, message. -/
structure ErrResp where
  http_status : Nat
  code : Int
  message : String
deriving Repr, DecidableEq

/-- Embeds `CreateTimerRequest` (src/api_create_timer.rs). -/
structure CreateTimerRequest where
  execute_at : Int
  callback : CallbackConfig
  metadata : Option Json
deriving Repr, DecidableEq

/-- Embeds `UpdateTimerRequest` (src/api_update_timer.rs): every field optional. -/
structure UpdateTimerRequest where
  execute_at : Option Int
  callback : Option CallbackConfig
  metadata : Option Json
deriving Repr, DecidableEq

/-- Embeds `str::starts_with`, computed on the underlying character list (the
built-in `String.startsWith` does not reduce in the kernel). -/
def strStartsWith (s pre : String) : Bool :=
  pre.data.isPrefixOf s.data

/-- Embeds `str::trim(...).is_empty()`: true iff every character is whitespace. -/
def strTrimIsEmpty (s : String) : Bool :=
  s.data.all (fun c => c.isWhitespace)

/-- The callback-configuration validation shared by the create and update
handlers (src/api_create_timer.rs lines 40–74, src/api_update_timer.rs lines
80–120): the url of an HTTP callback must start with `http://` or `https://`; a
NATS callback needs the NATS client configured and a non-empty (after trim)
topic.  Returns the determined `CallbackType` on success. -/
def validate_callback (callback : CallbackConfig) (nats_available : Bool) :
    Except ErrResp CallbackType :=
  match callback with
  | .http http =>
    if !strStartsWith http.url "http://" && !strStartsWith http.url "https://" then
      .error ⟨400, 2, "HTTP callback URL must start with http:// or https://"⟩
    else
      .ok .http
  | .nats nats =>
    if !nats_available then
      .error ⟨400, 2, "NATS callbacks not available (NATS_URL not configured)"⟩
    else if strTrimIsEmpty nats.topic then
      .error ⟨400, 2, "NATS topic cannot be empty"⟩
    else
      .ok .nats

/-- Embeds `db_create_timer` (src/db.rs): insert a fresh row with status
`pending`, `created_at = updated_at = now` (column defaults). -/
def db_create_timer (db : Store) (fresh_id : Nat) (execute_at : Int)
    (callback_type : CallbackType) (callback_config : CallbackConfig)
    (metadata : Option Json) (now : Int) : Store × Timer :=
  let t : Timer :=
    { id := fresh_id, created_at := now, updated_at := now
      execute_at := execute_at, callback_type := callback_type
      callback_config := callback_config, status := .pending
      last_error := none, executed_at := none, metadata := metadata }
  (db ++ [t], t)

/-- Embeds `create_timer` (src/api_create_timer.rs): validate
`execute_at > now + 5 s` (5000 ms), validate the callback, insert. -/
def create_timer (db : Store) (req : CreateTimerRequest) (now : Int)
    (nats_available : Bool) (fresh_id : Nat) :
    Except ErrResp (Store × Timer) :=
  let min_execute_time := now + 5000
  if req.execute_at ≤ min_execute_time then
    .error ⟨400, 2, "execute_at must be at least 5 seconds in the future"⟩
  else
    match validate_callback req.callback nats_available with
    | .error e => .error e
    | .ok callback_type =>
      .ok (db_create_timer db fresh_id req.execute_at callback_type
        req.callback req.metadata now)

/-- The callback-validation and store-update tail of `update_timer`
(src/api_update_timer.rs lines 79–145): determine the `CallbackType` from
the optional new callback, then run `db_update_timer` (no status check
there). -/
def update_timer_rest (db : Store) (timer_id : Nat)
    (req : UpdateTimerRequest) (now : Int) (nats_available : Bool)
    (existing_timer : Timer) : Except ErrResp (Store × Timer) :=
  match req.callback with
  | some callback =>
    match validate_callback callback nats_available with
    | .error e => .error e
    | .ok ct =>
      let db2 := db_update_timer db timer_id req.execute_at (some ct)
        (some callback) req.metadata now
      .ok (db2, (db_get_timer db2 timer_id).getD existing_timer)
  | none =>
    let db2 := db_update_timer db timer_id req.execute_at none none
      req.metadata now
    .ok (db2, (db_get_timer db2 timer_id).getD existing_timer)

/-- Embeds `update_timer` (src/api_update_timer.rs): fetch the row; 404 if absent;
reject with 400 `code=2` if the status is `completed`, `failed` or
`canceled` (lines 49–61 — `executing` is not rejected); validate the new
`execute_at` if provided (lines 63–77); then the callback-validation and
update tail. -/
def update_timer (db : Store) (timer_id : Nat) (req : UpdateTimerRequest)
    (now : Int) (nats_available : Bool) : Except ErrResp (Store × Timer) :=
  match db_get_timer db timer_id with
  | none => .error ⟨404, 3, "timer not found"⟩
  | some existing_timer =>
    if existing_timer.status = .completed ∨ existing_timer.status = .failed
        ∨ existing_timer.status = .canceled then
      .error ⟨400, 2, "cannot update timer with status \x27"
        ++ existing_timer.status.toString ++ "\x27"⟩
    else
      match req.execute_at with
      | some execute_at =>
        if execute_at ≤ now + 5000 then
          .error ⟨400, 2, "execute_at must be at least 5 seconds in the future"⟩
        else
          update_timer_rest db timer_id req now nats_available existing_timer
      | none => update_timer_rest db timer_id req now nats_available
          existing_timer

/-- Embeds `cancel_timer` (src/api_cancel_timer.rs): fetch the row; 404 if absent;
reject with 400 `code=2` if the status is `completed` or `failed` (lines
46–61 — `canceled` is NOT in the rejection set); otherwise run
`db_cancel_timer` and answer 200. -/
def cancel_timer (db : Store) (timer_id : Nat) (now : Int) :
    Except ErrResp (Store × Nat × String) :=
  match db_get_timer db timer_id with
  | none => .error ⟨404, 3, "timer not found"⟩
  | some existing_timer =>
    if existing_timer.status = .completed ∨ existing_timer.status = .failed
    then
      .error ⟨400, 2, "cannot cancel timer with status \x27"
        ++ existing_timer.status.toString ++ "\x27"⟩
    else
      let db2 := db_cancel_timer db timer_id now
      .ok (db2, timer_id,
        (((db_get_timer db2 timer_id).getD existing_timer).status).toString)

/-- Embeds `ListTimersQuery` (src/api_list_timers.rs): raw query parameters. -/
structure ListTimersQuery where
  status : Option String
  limit : Option Int
  offset : Option Int
  sort : Option String
  order : Option String
deriving Repr, DecidableEq

/-- The arguments `list_timers` passes to `db_list_timers` on success. -/
structure ListArgs where
  status_filter : Option String
  limit : Int
  offset : Int
  sort_field : String
  sort_order : String
deriving Repr, DecidableEq

/-- Embeds `list_timers` (src/api_list_timers.rs): apply defaults and clamps
(`limit` default 50 clamped to `[1, 200]`, `offset` default 0 clamped to
`≥ 0`, `sort` default `created_at`, `order` default `desc`), then validate
the sort field, the sort order and the optional status filter against their
whitelists; only then call `db_list_timers`. -/
def list_timers (params : ListTimersQuery) : Except ErrResp ListArgs :=
  let limit := max 1 (min 200 (params.limit.getD 50))
  let offset := max 0 (params.offset.getD 0)
  let sort_field := params.sort.getD "created_at"
  let sort_order := params.order.getD "desc"
  if !(sort_field == "created_at" || sort_field == "execute_at") then
    .error ⟨400, 2, "sort field must be \x27created_at\x27 or \x27execute_at\x27"⟩
  else if !(sort_order == "asc" || sort_order == "desc") then
    .error ⟨400, 2, "order must be \x27asc\x27 or \x27desc\x27"⟩
  else
    match params.status with
    | some status =>
      if !(status == "pending" || status == "executing"
          || status == "completed" || status == "failed"
          || status == "canceled") then
        .error ⟨400, 2,
          "status must be one of: pending, executing, completed, failed, canceled"⟩
      else
        .ok ⟨some status, limit, offset, sort_field, sort_order⟩
    | none => .ok ⟨none, limit, offset, sort_field, sort_order⟩

/-- The SQL text `db_list_timers` (src/db.rs lines 62–92) builds by string
interpolation: the status filter, the sort field and the sort order are
spliced into the query; `limit` and `offset` are bound parameters (`$1`,
`$2`), never text. -/
def db_list_timers_query (status_filter : Option String)
    (sort_field sort_order : String) : String :=
  let where_clause := match status_filter with
    | some status => "WHERE status = \x27" ++ status ++ "\x27"
    | none => ""
  let order_clause := "ORDER BY " ++ sort_field ++ " " ++ sort_order
  "SELECT id, created_at, updated_at, execute_at, callback_type, "
    ++ "callback_config, status, last_error, executed_at, metadata "
    ++ "FROM timers " ++ where_clause ++ " " ++ order_clause
    ++ " LIMIT $1 OFFSET $2"

/-! ## Concrete instances and helper lemmas -/

/-- A sample HTTP callback used in concrete instantiations. -/
def sampleHttpCb : CallbackConfig := .http ⟨"http://stub/recv", none, none⟩

/-- A sample row used in concrete instantiations. -/
def mkTimer (id : Nat) (execute_at : Int) (status : TimerStatus) : Timer :=
  { id := id, created_at := 0, updated_at := 0, execute_at := execute_at
    callback_type := .http, callback_config := sampleHttpCb
    status := status, last_error := none, executed_at := none
    metadata := none }

/-- Accumulating the dispatch list over a tick: a fold of `tickStep` appends
exactly the processed timers, in processing order. -/
theorem tickStep_foldl_dispatched (now : Int) (l : List Timer)
    (st : TickState) :
    (l.foldl (tickStep now) st).dispatched = st.dispatched ++ l := by
  induction l generalizing st with
  | nil => simp
  | cons t ts ih =>
    simp only [List.foldl_cons, ih, tickStep]
    simp

/-- Lemma: `db_get_timer` after `db_cancel_timer` returns the canceled image of the
row `db_get_timer` found before, because the per-row update preserves ids. -/
theorem db_get_timer_after_cancel (db : Store) (timer_id : Nat) (now : Int)
    (t : Timer) (hget : db_get_timer db timer_id = some t) :
    db_get_timer (db_cancel_timer db timer_id now) timer_id
      = some { t with status := .canceled, updated_at := now } := by
  unfold db_get_timer db_cancel_timer
  rw [List.find?_map]
  have hp : (fun r : Timer => r.id == timer_id) ∘
      (fun r : Timer =>
        if r.id == timer_id then { r with status := .canceled, updated_at := now }
        else r) = fun r : Timer => r.id == timer_id := by
    funext r
    by_cases h : r.id = timer_id <;> simp [h]
  rw [hp]
  unfold db_get_timer at hget
  rw [hget]
  have hid : t.id = timer_id := by
    have := List.find?_some hget
    simpa using this
  simp [Option.map_some, hid]

/-! ## Claims -/

/-- Claim C1 (code bug): the claim says `db_mark_executing` is an atomic
compare-and-set that moves a row to `executing` only from `pending` and
reports false otherwise.  The code runs `UPDATE timers SET status =
executing WHERE id = $1` with no status condition and returns `Ok(())`
unconditionally: a `canceled` row and a `completed` row are both moved to
`executing`. -/
theorem c1_mark_executing_not_cas :
    db_mark_executing [mkTimer 1 10 .canceled] 1 99
      = [{ mkTimer 1 10 .canceled with status := .executing, updated_at := 99 }]
    ∧ (db_mark_executing [mkTimer 2 10 .completed] 2 99).map Timer.status
      = [.executing] := by
  constructor <;> rfl

/-- Claim C2 (code bug): the claim says a timer canceled in the Store but
still cached is never dispatched because the claim against the Store returns
false.  In the code the Ticker call to `db_mark_executing` has no status gate, so
the canceled row is moved to `executing` and the callback task is spawned:
with store row id 1 `canceled` and a stale `pending` copy in cache
(`execute_at` 10 ≤ now 20), the tick dispatches the timer. -/
theorem c2_canceled_cached_timer_dispatched :
    (executionTick [{ mkTimer 1 10 .canceled with updated_at := 5 }]
        [(1, mkTimer 1 10 .pending)] 20).dispatched
      = [mkTimer 1 10 .pending]
    ∧ ((executionTick [{ mkTimer 1 10 .canceled with updated_at := 5 }]
        [(1, mkTimer 1 10 .pending)] 20).db.map Timer.status)
      = [.executing] := by
  constructor <;> rfl

/-- Claim C3 (code bug): the claim says terminal states are sticky — once a
row is `completed`, `failed` or `canceled`, `db_mark_completed` and
`db_mark_failed` leave it unchanged.  In the code, `UPDATE ... WHERE id = $1`
has no status guard: `db_mark_completed` on a `failed` row overwrites the
status and `executed_at`, `db_mark_failed` on a `completed` row overwrites
the status, and a second `db_mark_completed` moves `executed_at` again. -/
theorem c3_terminal_states_overwritten :
    (db_mark_completed
        [{ mkTimer 1 10 .failed with
            last_error := some "HTTP 500: Internal Server Error",
            executed_at := some 50 }] 1 99).map Timer.status
      = [.completed]
    ∧ (db_mark_completed
        [{ mkTimer 1 10 .failed with
            last_error := some "HTTP 500: Internal Server Error",
            executed_at := some 50 }] 1 99).map Timer.executed_at
      = [some 99]
    ∧ (db_mark_failed
        [{ mkTimer 2 10 .completed with executed_at := some 50 }]
        2 "boom" 99).map Timer.status
      = [.failed]
    ∧ (db_mark_completed
        (db_mark_completed [mkTimer 3 10 .executing] 3 50) 3 99).map
          Timer.executed_at
      = [some 99] := by
  refine ⟨rfl, rfl, rfl, rfl⟩

/-- Claim C7, counterexample: with the cache holding (in iteration order)
timer 1 due at 10 and timer 2 due at 5, the tick at now = 20 dispatches
them in cache order — `execute_at` sequence [10, 5], not ascending. -/
theorem c7_counterexample :
    ¬ ((executionTick [mkTimer 1 10 .pending, mkTimer 2 5 .pending]
          [(1, mkTimer 1 10 .pending), (2, mkTimer 2 5 .pending)]
          20).dispatched.map Timer.execute_at).Sorted (· ≤ ·) := by
  intro h
  have : (10 : Int) ≤ 5 := by
    have h10 : ((executionTick [mkTimer 1 10 .pending, mkTimer 2 5 .pending]
          [(1, mkTimer 1 10 .pending), (2, mkTimer 2 5 .pending)]
          20).dispatched.map Timer.execute_at) = [10, 5] := rfl
    rw [h10] at h
    exact List.rel_of_sorted_cons h 5 (by simp)
  omega

/-- Claim C7, amended: within a single tick the due timers are claimed and
handed to the Dispatcher in cache iteration order (the order of the
due-timer snapshot), not sorted by `execute_at`; the cache is a `HashMap`
keyed by id, whose iteration order bears no relation to `execute_at`. -/
theorem c7_dispatch_in_cache_order (db : Store) (cache : Cache) (now : Int) :
    (executionTick db cache now).dispatched = dueTimers cache now := by
  unfold executionTick
  rw [tickStep_foldl_dispatched]
  rfl

/-- Claim C4, counterexample: a PUT on a timer whose status is `executing`
is not rejected — the admission check (src/api_update_timer.rs lines 49–61)
rejects only `completed`, `failed` and `canceled`, so the update goes
through and answers 200. -/
theorem c4_counterexample :
    update_timer [mkTimer 1 10 .executing] 1 ⟨none, none, none⟩ 77 false
      = .ok ([{ mkTimer 1 10 .executing with updated_at := 77 }],
          { mkTimer 1 10 .executing with updated_at := 77 }) := by
  rfl

/-- Claim C4, amended: admission rejects the update with 400 (`code=2`)
exactly when the current status of the timer is terminal (`completed`, `failed`
or `canceled`); a timer in status `executing` passes the status gate and
(with no `execute_at` or callback deltas) is updated successfully. -/
theorem c4_update_admission (db : Store) (timer_id : Nat)
    (req : UpdateTimerRequest) (now : Int) (nats_available : Bool)
    (t : Timer) (hget : db_get_timer db timer_id = some t) :
    (t.status = .completed ∨ t.status = .failed ∨ t.status = .canceled →
      update_timer db timer_id req now nats_available
        = .error ⟨400, 2, "cannot update timer with status \x27"
            ++ t.status.toString ++ "\x27"⟩)
    ∧ (t.status = .executing → req.execute_at = none → req.callback = none →
      update_timer db timer_id req now nats_available
        = .ok (db_update_timer db timer_id none none none req.metadata now,
            (db_get_timer (db_update_timer db timer_id none none none
              req.metadata now) timer_id).getD t)) := by
  constructor
  · intro h
    simp only [update_timer, hget]
    rw [if_pos h]
  · intro hs he hc
    simp only [update_timer, hget]
    rw [if_neg (by simp [hs])]
    simp only [he]
    unfold update_timer_rest
    simp only [hc, he]

/-- Claim C4, witness: the amended theorem applied to a store holding one
`executing` timer. -/
theorem c4_update_admission_witness :
    update_timer [mkTimer 1 10 .executing] 1 ⟨none, none, some "m"⟩ 99 false
      = .ok (db_update_timer [mkTimer 1 10 .executing] 1 none none none
          (some "m") 99,
        (db_get_timer (db_update_timer [mkTimer 1 10 .executing] 1 none none
          none (some "m") 99) 1).getD (mkTimer 1 10 .executing)) :=
  (c4_update_admission [mkTimer 1 10 .executing] 1 ⟨none, none, some "m"⟩ 99
    false (mkTimer 1 10 .executing) rfl).2 rfl rfl rfl

/-- Claim C5, counterexample: DELETE on an already-`canceled` timer is not
rejected — the admission check (src/api_cancel_timer.rs lines 46–61)
rejects only `completed` and `failed`, so the cancel is re-applied and the
handler answers 200. -/
theorem c5_counterexample :
    cancel_timer [mkTimer 1 10 .canceled] 1 20
      = .ok ([{ mkTimer 1 10 .canceled with updated_at := 20 }], 1,
          "canceled") := by
  rfl

/-- Claim C5, amended: cancellation is rejected with 400 (`code=2`) exactly
when the current status is `completed` or `failed`; it is accepted — setting
the status to `canceled` — when the current status is `pending`, `executing`
or (already) `canceled`. -/
theorem c5_cancel_admission (db : Store) (timer_id : Nat) (now : Int)
    (t : Timer) (hget : db_get_timer db timer_id = some t) :
    (t.status = .completed ∨ t.status = .failed →
      cancel_timer db timer_id now
        = .error ⟨400, 2, "cannot cancel timer with status \x27"
            ++ t.status.toString ++ "\x27"⟩)
    ∧ (¬(t.status = .completed ∨ t.status = .failed) →
      cancel_timer db timer_id now
        = .ok (db_cancel_timer db timer_id now, timer_id, "canceled")) := by
  constructor
  · intro h
    simp only [cancel_timer, hget]
    rw [if_pos h]
  · intro h
    simp only [cancel_timer, hget]
    rw [if_neg h]
    rw [db_get_timer_after_cancel db timer_id now t hget]
    rfl

/-- Claim C5, witness: the amended theorem applied to a store holding one
`pending` timer (accepted) — hypotheses discharged by evaluation. -/
theorem c5_cancel_admission_witness :
    cancel_timer [mkTimer 4 10 .pending] 4 55
      = .ok (db_cancel_timer [mkTimer 4 10 .pending] 4 55, 4, "canceled") :=
  (c5_cancel_admission [mkTimer 4 10 .pending] 4 55 (mkTimer 4 10 .pending)
    rfl).2 (by decide)

/-- Claim C6: the dispatch outcome of `execute_callback` (src/callback.rs
lines 41–87) — a response with status in `[200, 300)` marks the timer
completed; any other response status marks it failed with message exactly
`"HTTP <code>: <reason>"`; a timeout marks it failed with
`"Connection timeout after 30s"`, a connect error with
`"Connection error: <e>"`; in particular 299 is a success and 300 a
failure. -/
theorem c6_dispatch_outcome_recorded (r : Timer) (code : Nat) (m : String)
    (now : Int) :
    (200 ≤ code ∧ code < 300 →
      execute_callback [r] r.id (.response code) now
        = [{ r with
              status := .completed,
              executed_at := some now,
              updated_at := now }])
    ∧ (¬(200 ≤ code ∧ code < 300) →
      execute_callback [r] r.id (.response code) now
        = [{ r with
              status := .failed,
              last_error := some ("HTTP " ++ toString code ++ ": "
                ++ canonicalReason code),
              executed_at := some now,
              updated_at := now }])
    ∧ execute_callback [r] r.id .timeoutErr now
        = [{ r with
              status := .failed,
              last_error := some "Connection timeout after 30s",
              executed_at := some now,
              updated_at := now }]
    ∧ execute_callback [r] r.id (.connectErr m) now
        = [{ r with
              status := .failed,
              last_error := some ("Connection error: " ++ m),
              executed_at := some now,
              updated_at := now }]
    ∧ (execute_callback [r] r.id (.response 299) now).map Timer.status
        = [.completed]
    ∧ (execute_callback [r] r.id (.response 300) now).map Timer.status
        = [.failed] := by
  refine ⟨?_, ?_, ?_, ?_, ?_, ?_⟩
  · rintro ⟨h1, h2⟩
    have hs : isSuccessStatus code = true := by
      simp only [isSuccessStatus, Bool.and_eq_true, decide_eq_true_eq]
      omega
    simp [execute_callback, hs, db_mark_completed]
  · intro h
    have hs : isSuccessStatus code = false := by
      simp only [isSuccessStatus, Bool.and_eq_false_iff, decide_eq_false_iff_not]
      omega
    simp [execute_callback, hs, db_mark_failed]
  · simp [execute_callback, db_mark_failed]
  · simp [execute_callback, db_mark_failed]
  · simp [execute_callback, isSuccessStatus, db_mark_completed]
  · simp [execute_callback, isSuccessStatus, db_mark_failed]

/-- Claim C6, witness: a 500 response on a concrete executing timer is
recorded as failed with message `"HTTP 500: Internal Server Error"`. -/
theorem c6_dispatch_outcome_recorded_witness :
    execute_callback [mkTimer 1 10 .executing] 1 (.response 500) 99
      = [{ mkTimer 1 10 .executing with
            status := .failed,
            last_error := some "HTTP 500: Internal Server Error",
            executed_at := some 99,
            updated_at := 99 }] :=
  (c6_dispatch_outcome_recorded (mkTimer 1 10 .executing) 500 "x" 99).2.1
    (by decide)

/-- Claim C8: admission validation of the firing instant is strict — for
create and for update (on a non-terminal timer), `execute_at = now + 5 s`
exactly is rejected with 400 (`code=2`, message containing "5 seconds"),
and `execute_at = now + 5 s + 1 ms` passes the validation (the requests
here carry a valid HTTP callback, respectively no callback delta, so the
accepted case completes successfully). -/
theorem c8_five_second_boundary (db : Store) (now : Int)
    (meta : Option Json) (fresh_id : Nat) (timer_id : Nat) (t : Timer)
    (hget : db_get_timer db timer_id = some t) (hp : t.status = .pending) :
    create_timer db ⟨now + 5000, sampleHttpCb, meta⟩ now false fresh_id
      = .error ⟨400, 2,
          "execute_at must be at least " ++ "5 seconds" ++ " in the future"⟩
    ∧ create_timer db ⟨now + 5001, sampleHttpCb, meta⟩ now false fresh_id
      = .ok (db_create_timer db fresh_id (now + 5001) .http sampleHttpCb
          meta now)
    ∧ update_timer db timer_id ⟨some (now + 5000), none, none⟩ now false
      = .error ⟨400, 2,
          "execute_at must be at least " ++ "5 seconds" ++ " in the future"⟩
    ∧ update_timer db timer_id ⟨some (now + 5001), none, none⟩ now false
      = .ok (db_update_timer db timer_id (some (now + 5001)) none none none
            now,
          (db_get_timer (db_update_timer db timer_id (some (now + 5001))
            none none none now) timer_id).getD t) := by
  refine ⟨?_, ?_, ?_, ?_⟩
  · simp only [create_timer]
    rw [if_pos (by omega)]
    rfl
  · simp only [create_timer]
    rw [if_neg (by omega)]
    rfl
  · simp only [update_timer, hget]
    rw [if_neg (by simp [hp])]
    rw [if_pos (by omega)]
    rfl
  · simp only [update_timer, hget]
    rw [if_neg (by simp [hp])]
    rw [if_neg (by omega)]
    rfl

/-- Claim C8, witness: the boundary theorem applied to a store holding one
pending timer, at now = 0. -/
theorem c8_five_second_boundary_witness :
    create_timer [mkTimer 1 10 .pending] ⟨(0 : Int) + 5000, sampleHttpCb,
        none⟩ 0 false 7
      = .error ⟨400, 2,
          "execute_at must be at least " ++ "5 seconds" ++ " in the future"⟩ :=
  (c8_five_second_boundary [mkTimer 1 10 .pending] 0 none 7 1
    (mkTimer 1 10 .pending) rfl rfl).1

/-- Claim C9: `db_update_timer` modifies only the provided subset plus
`updated_at` — for a row with the targeted id, `updated_at` becomes `now`,
each of `execute_at`, `callback_type`, `callback_config` and `metadata` is
set exactly when its delta is provided and kept otherwise, and `id`,
`created_at`, `status`, `last_error`, `executed_at` are unchanged; rows
with another id are untouched. -/
theorem c9_update_frame (db : Store) (r : Timer) (timer_id : Nat)
    (ea : Option Int) (ct : Option CallbackType) (cc : Option CallbackConfig)
    (meta : Option Json) (now : Int) (hmem : r ∈ db) :
    updateTimerRow timer_id ea ct cc meta now r
        ∈ db_update_timer db timer_id ea ct cc meta now
    ∧ (updateTimerRow timer_id ea ct cc meta now r).id = r.id
    ∧ (updateTimerRow timer_id ea ct cc meta now r).created_at = r.created_at
    ∧ (updateTimerRow timer_id ea ct cc meta now r).status = r.status
    ∧ (updateTimerRow timer_id ea ct cc meta now r).last_error = r.last_error
    ∧ (updateTimerRow timer_id ea ct cc meta now r).executed_at
        = r.executed_at
    ∧ (r.id = timer_id →
        (updateTimerRow timer_id ea ct cc meta now r).updated_at = now
        ∧ (updateTimerRow timer_id ea ct cc meta now r).execute_at
            = ea.getD r.execute_at
        ∧ (updateTimerRow timer_id ea ct cc meta now r).callback_type
            = ct.getD r.callback_type
        ∧ (updateTimerRow timer_id ea ct cc meta now r).callback_config
            = cc.getD r.callback_config
        ∧ (updateTimerRow timer_id ea ct cc meta now r).metadata
            = (match meta with | some m => some m | none => r.metadata))
    ∧ (r.id ≠ timer_id → updateTimerRow timer_id ea ct cc meta now r = r) := by
  refine ⟨List.mem_map_of_mem _ hmem, ?_⟩
  unfold updateTimerRow
  by_cases h : r.id = timer_id <;> simp [h]

/-- Claim C9, witness: the frame theorem applied to concrete rows — one
matching the targeted id (fields set per the provided deltas, the rest
kept) and one with a different id (untouched). -/
theorem c9_update_frame_witness :
    (updateTimerRow 5 (some 20) none none (some "m") 9
        (mkTimer 5 10 .pending)).status = (mkTimer 5 10 .pending).status
    ∧ (updateTimerRow 5 (some 20) none none (some "m") 9
        (mkTimer 5 10 .pending)).execute_at = 20
    ∧ updateTimerRow 5 (some 20) none none (some "m") 9
        (mkTimer 7 10 .pending) = mkTimer 7 10 .pending := by
  refine ⟨?_, ?_, ?_⟩
  · exact (c9_update_frame [mkTimer 5 10 .pending] (mkTimer 5 10 .pending) 5
      (some 20) none none (some "m") 9 (List.mem_singleton.2 rfl)).2.2.2.1
  · exact ((c9_update_frame [mkTimer 5 10 .pending] (mkTimer 5 10 .pending) 5
      (some 20) none none (some "m") 9
      (List.mem_singleton.2 rfl)).2.2.2.2.2.2.1 rfl).2.1
  · exact (c9_update_frame [mkTimer 7 10 .pending] (mkTimer 7 10 .pending) 5
      (some 20) none none (some "m") 9
      (List.mem_singleton.2 rfl)).2.2.2.2.2.2.2 (by decide)

/-- Claim C10: every call that reaches `db_list_timers` through the GET
/timers handler has passed the whitelist — the status filter, if present,
is one of the five literal status strings, the sort field is `created_at`
or `execute_at`, and the order is `asc` or `desc`; these are the only
request-controlled strings interpolated into the query text (`limit` and
`offset` are bound parameters). -/
theorem c10_list_whitelist (params : ListTimersQuery) (args : ListArgs)
    (h : list_timers params = .ok args) :
    (args.sort_field = "created_at" ∨ args.sort_field = "execute_at")
    ∧ (args.sort_order = "asc" ∨ args.sort_order = "desc")
    ∧ ∀ s, args.status_filter = some s →
        s = "pending" ∨ s = "executing" ∨ s = "completed" ∨ s = "failed"
          ∨ s = "canceled" := by
  rcases hst : params.status with _ | status
  · unfold list_timers at h
    simp only [hst] at h
    split at h
    · exact absurd h (by simp)
    · split at h
      · exact absurd h (by simp)
      · rename_i hsf hso
        rw [Except.ok.injEq] at h
        subst h
        refine ⟨by simp at hsf; tauto, by simp at hso; tauto, ?_⟩
        intro s hs
        simp at hs
  · unfold list_timers at h
    simp only [hst] at h
    split at h
    · exact absurd h (by simp)
    · split at h
      · exact absurd h (by simp)
      · split at h
        · exact absurd h (by simp)
        · rename_i hsf hso hstat
          rw [Except.ok.injEq] at h
          subst h
          refine ⟨by simp at hsf; tauto, by simp at hso; tauto, ?_⟩
          intro s hs
          have hss : status = s := by simpa using hs
          subst hss
          simp at hstat
          tauto

/-- Claim C10, witness: the whitelist theorem applied to a concrete valid
query. -/
theorem c10_list_whitelist_witness :
    ((⟨some "pending", 17, 0, "execute_at", "asc"⟩ : ListArgs).sort_field
        = "created_at"
      ∨ (⟨some "pending", 17, 0, "execute_at", "asc"⟩ : ListArgs).sort_field
        = "execute_at")
    ∧ ((⟨some "pending", 17, 0, "execute_at", "asc"⟩ : ListArgs).sort_order
        = "asc"
      ∨ (⟨some "pending", 17, 0, "execute_at", "asc"⟩ : ListArgs).sort_order
        = "desc")
    ∧ ∀ s, (⟨some "pending", 17, 0, "execute_at", "asc"⟩ :
          ListArgs).status_filter = some s →
        s = "pending" ∨ s = "executing" ∨ s = "completed" ∨ s = "failed"
          ∨ s = "canceled" :=
  c10_list_whitelist
    ⟨some "pending", some 17, none, some "execute_at", some "asc"⟩
    ⟨some "pending", 17, 0, "execute_at", "asc"⟩ rfl
